import Mathlib

/-!
Verification of the Primitive Art Generator front-end (src/app.py).

The application is a thin orchestration layer: it validates that two
external executables are on the search path, creates three working
directories, saves the uploaded image, invokes the external `primitive`
tool once, optionally invokes ImageMagick once to assemble a GIF, and
cleans up afterwards.  We embed that orchestration shallowly:

* the filesystem is a pair of lists (directories, flat file paths),
* external behaviour that the program merely observes (search-path
  lookup results, subprocess exit statuses, files the external tools
  write) is an oracle record `Env`,
* the processing block (app.py lines 147-226) is the function
  `process`, which returns the final filesystem together with the trace
  of subprocess invocations (each paired with the directories existing
  at the moment of the call), the error messages shown to the user, the
  file writes performed, and the uncaught exception, if any.
-/

namespace PrimitiveApp

/-- Initial-segment test: `charsPre pre cs` holds when `pre` is an
initial segment of `cs` (structural recursion, so it evaluates inside
the kernel). -/
def charsPre : List Char → List Char → Bool
  | [], _ => true
  | _ :: _, [] => false
  | a :: as, b :: bs => a == b && charsPre as bs

/-- Python `s.startswith(pre)`. -/
def strStarts (s pre : String) : Bool := charsPre pre.toList s.toList

/-- Python `s.endswith(suf)`. -/
def strEnds (s suf : String) : Bool := charsPre suf.toList.reverse s.toList.reverse

/-- app.py line 12: `INPUT_DIR = Path("temp_inputs")`. -/
def INPUT_DIR : String := "temp_inputs"

/-- app.py line 13: `FRAME_DIR = Path("temp_frames")`. -/
def FRAME_DIR : String := "temp_frames"

/-- app.py line 14: `OUTPUT_DIR = Path("outputs")`. -/
def OUTPUT_DIR : String := "outputs"

/-- Path concatenation `dir / file`. -/
def joinPath (d f : String) : String := d ++ "/" ++ f

/-- The filesystem: the directories that exist and the files that exist
(files are stored as full `dir/name` paths). -/
structure FS where
  dirs : List String
  files : List String
deriving Repr, DecidableEq

/-- Model of `Path.mkdir(exist_ok=True)`: creates the directory,
succeeding (and changing nothing) when it already exists. -/
def mkdirP (fs : FS) (d : String) : FS :=
  { fs with dirs := if d ∈ fs.dirs then fs.dirs else d :: fs.dirs }

/-- app.py lines 19-22: `setup_directories` makes the three working
directories with `exist_ok=True`. -/
def setup_directories (fs : FS) : FS :=
  mkdirP (mkdirP (mkdirP fs INPUT_DIR) FRAME_DIR) OUTPUT_DIR

/-- app.py lines 24-28: `validate_environment`.  `which` is the oracle
for `shutil.which` (`true` iff the executable is found on the search
path). -/
def validate_environment (which : String → Bool) : Bool :=
  (which "primitive" || which "primitive.exe") &&
  (which "magick" || which "convert")

/-- Model of opening a path for writing and writing to it: the file now
exists. -/
def writeFile (fs : FS) (p : String) : FS :=
  { fs with files := if p ∈ fs.files then fs.files else p :: fs.files }

/-- Model of `shutil.rmtree(d, ignore_errors=True)`: the directory and
every file under it are gone afterwards, and nothing is raised. -/
def rmtree (fs : FS) (d : String) : FS :=
  { dirs := fs.dirs.filter (fun x => x != d),
    files := fs.files.filter (fun f => !(strStarts f (d ++ "/"))) }

/-- Model of `Path(name).stem`: the name without its last suffix.
CPython keeps the whole name when the last dot is absent, leading, or
trailing. -/
def stem (name : String) : String :=
  let cs := name.toList
  let dotIdxs := (List.range cs.length).filter (fun i => cs.get? i = some '.')
  match dotIdxs.getLast? with
  | some i => if 0 < i ∧ i < cs.length - 1 then String.mk (cs.take i) else name
  | none => name

/-- Model of Python lstrip with `#`: drop every leading `#`. -/
def lstripHash (s : String) : String :=
  String.mk (s.toList.dropWhile (fun c => c = '#'))

/-- app.py line 43: `params["bg_color"].lstrip("#") or "ffffff"` — the
empty string is falsy, so an empty stripped colour becomes `"ffffff"`. -/
def bgOrDefault (s : String) : String :=
  if lstripHash s = "" then "ffffff" else lstripHash s

/-- The `params` dictionary built at app.py lines 169-183. -/
structure Params where
  input_path : String
  output_path : String
  num_shapes : Nat
  mode : String
  rep : Nat
  nth : Nat
  resize : Nat
  output_size : Nat
  alpha : Nat
  bg_color : String
  workers : Nat
  verbose : Bool
  very_verbose : Bool
deriving Repr, DecidableEq

/-- app.py lines 32-48: the argument list `cmd` built by
`generate_artwork`.  `nt` is `os.name == "nt"`. -/
def generate_artwork_cmd (nt : Bool) (params : Params) : List String :=
  ["primitive" ++ (if nt then ".exe" else ""),
   "-i", params.input_path,
   "-o", params.output_path,
   "-n", toString params.num_shapes,
   "-m", params.mode,
   "-rep", toString params.rep,
   "-nth", toString params.nth,
   "-r", toString params.resize,
   "-s", toString params.output_size,
   "-a", toString params.alpha,
   "-bg", bgOrDefault params.bg_color,
   "-j", toString params.workers]
  ++ (if params.verbose then ["-v"] else [])
  ++ (if params.very_verbose then ["-vv"] else [])

/-- app.py lines 55-62: the argument list built by `create_gif`.
`whichMagick` is whether `shutil.which("magick")` found the binary. -/
def create_gif_cmd (whichMagick : Bool) (base_name : String) : List String :=
  [(if whichMagick then "magick" else "convert"),
   "-delay", "10",
   "-loop", "0",
   joinPath FRAME_DIR "*.png",
   joinPath OUTPUT_DIR (base_name ++ "_animation.gif")]

/-- One submission of the settings form (app.py lines 93-123):
`uploaded` is the name of the uploaded file, or `none` when no file was
uploaded. -/
structure Request where
  submitted : Bool
  uploaded : Option String
  num_shapes : Nat
  mode : String
  bg_color : String
  alpha : Nat
  resize : Nat
  output_size : Nat
  rep : Nat
  nth : Nat
  workers : Nat
  output_format : String
  verbose : Bool
  very_verbose : Bool
deriving Repr, DecidableEq

/-- The external world the program observes.  `which` answers
`shutil.which`; `nt` is `os.name == "nt"`; `primitiveStatus` and
`primitiveStderr` are the exit status and captured diagnostic output of
the `primitive` run (captured via `capture_output=True` but, absent
`check=True`, never inspected by the program); `primitiveOutputs` are
the files that run writes; `magickStatus` is the exit status of the
ImageMagick run (invoked with `check=True` and no capture, so on
failure `CalledProcessError.stderr` is `None`). -/
structure Env where
  which : String → Bool
  nt : Bool
  primitiveStatus : Nat
  primitiveStderr : String
  primitiveOutputs : List String
  magickStatus : Nat

/-- The `params` dictionary of app.py lines 169-183 as a function of the
form inputs: the output path is the frame pattern for GIF and the single
result image otherwise (line 171 and lines 157-159). -/
def paramsFor (req : Request) (name : String) : Params :=
  { input_path := joinPath INPUT_DIR name,
    output_path :=
      if strStarts req.output_format "GIF" then joinPath FRAME_DIR "%04d.png"
      else joinPath OUTPUT_DIR (stem name ++ "_result.png"),
    num_shapes := req.num_shapes,
    mode := req.mode,
    rep := req.rep,
    nth := req.nth,
    resize := req.resize,
    output_size := req.output_size,
    alpha := req.alpha,
    bg_color := req.bg_color,
    workers := req.workers,
    verbose := req.verbose,
    very_verbose := req.very_verbose }

/-- Python exceptions that can escape the `try` block. -/
inductive PyExc where
  | calledProcessError (returncode : Nat) (stderr : Option String)
  | other (msg : String)
deriving Repr, DecidableEq

/-- Intermediate frame files: app.py line 192, `FRAME_DIR.glob("*.png")`
(a file directly in the frame directory whose name ends in `.png`). -/
def isFramePng (f : String) : Bool :=
  strStarts f (FRAME_DIR ++ "/") && strEnds f ".png"

/-- app.py lines 192-193: unlink every `*.png` in the frame directory. -/
def unlinkFramePngs (fs : FS) : FS :=
  { fs with files := fs.files.filter (fun f => !(isFramePng f)) }

/-- The `*.png` frame files present on a filesystem. -/
def framePngs (fs : FS) : List String := fs.files.filter isFramePng

/-- Result of the `try` block (app.py lines 155-218): filesystem,
subprocess-call trace (command, directories existing at call time),
files written, and the exception that escaped, if any. -/
structure TryResult where
  fs : FS
  calls : List (List String × List String)
  writes : List String
  exc : Option PyExc
deriving Repr

/-- The `try` block, app.py lines 155-218.  The upload is saved, the
`primitive` tool is invoked (its exit status is ignored because
`subprocess.run` is called without `check=True`), then for GIF requests
ImageMagick is invoked with `check=True` (raising `CalledProcessError`
with `stderr = None` on a non-zero status) and the intermediate frames
are unlinked; finally the result image is displayed and offered for
download, which raises when the result file does not exist. -/
def runTry (env : Env) (req : Request) (name : String) (fs : FS) : TryResult :=
  let input_path := joinPath INPUT_DIR name
  let base_name := stem name
  let output_path := joinPath OUTPUT_DIR (base_name ++ "_result.png")
  let fs1 := writeFile fs input_path
  let p := paramsFor req name
  let cmd1 := generate_artwork_cmd env.nt p
  let fs2 := env.primitiveOutputs.foldl writeFile fs1
  if strStarts req.output_format "GIF" then
    let cmd2 := create_gif_cmd (env.which "magick") base_name
    let calls := [(cmd1, fs1.dirs), (cmd2, fs2.dirs)]
    if env.magickStatus ≠ 0 then
      { fs := fs2, calls := calls, writes := input_path :: env.primitiveOutputs,
        exc := some (.calledProcessError env.magickStatus none) }
    else
      let gifPath := joinPath OUTPUT_DIR (base_name ++ "_animation.gif")
      let fs3 := unlinkFramePngs (writeFile fs2 gifPath)
      if gifPath ∈ fs3.files then
        { fs := fs3, calls := calls,
          writes := input_path :: env.primitiveOutputs ++ [gifPath], exc := none }
      else
        { fs := fs3, calls := calls,
          writes := input_path :: env.primitiveOutputs ++ [gifPath],
          exc := some (.other ("MediaFileStorageError: " ++ gifPath)) }
  else
    let calls := [(cmd1, fs1.dirs)]
    if output_path ∈ fs2.files then
      { fs := fs2, calls := calls, writes := input_path :: env.primitiveOutputs,
        exc := none }
    else
      { fs := fs2, calls := calls, writes := input_path :: env.primitiveOutputs,
        exc := some (.other ("MediaFileStorageError: " ++ output_path)) }

/-- Split a character list at newline characters (Python `splitlines`
restricted to `\n`, which is all the program can meet in `stderr`). -/
def splitNl : List Char → List (List Char)
  | [] => [[]]
  | c :: cs =>
    let r := splitNl cs
    if c = '\n' then [] :: r
    else
      match r with
      | [] => [[c]]
      | h :: t => (c :: h) :: t

/-- Last line of a diagnostic string, as an `Option`: `none` models the
`IndexError` raised on an empty line list.  Python splitlines drops a
trailing final newline rather than producing a trailing empty line. -/
def splitlinesLast (s : String) : Option String :=
  let parts := (splitNl s.toList).map (fun l => String.mk l)
  let parts := if parts.getLast? = some "" then parts.dropLast else parts
  parts.getLast?

/-- The `except` clauses, app.py lines 220-223, as a map from the
exception escaping the `try` block to (`st.error` messages shown,
exception escaping the whole script).  The `CalledProcessError` handler
evaluates `e.stderr.splitlines()[-1]`, which itself raises
`AttributeError` when `stderr` is `None` and `IndexError` when the
captured output has no lines; the generic handler shows `str(e)`. -/
def handleExc : Option PyExc → List String × Option String
  | none => ([], none)
  | some (.calledProcessError _ none) =>
    ([], some "AttributeError: NoneType object has no attribute splitlines")
  | some (.calledProcessError _ (some s)) =>
    match splitlinesLast s with
    | none => ([], some "IndexError: list index out of range")
    | some last => (["❌ Processing error: " ++ last], none)
  | some (.other msg) => (["❌ Unexpected error: " ++ msg], none)

/-- Everything observable about one run of the processing block:
final filesystem, `st.error` messages shown, subprocess-call trace
(command, directories at call time), file writes, and the exception
that escaped the script, if any. -/
structure Outcome where
  fs : FS
  errors : List String
  calls : List (List String × List String)
  writes : List String
  uncaught : Option String
deriving Repr

/-- app.py line 149. -/
def depsErrorMsg : String :=
  "❌ Missing required dependencies: Install Primitive and ImageMagick"

/-- The processing block, app.py lines 147-226.  `fs0` is the
filesystem before the request.  When no file is uploaded or the form
was not submitted the block is skipped; when `validate_environment`
fails the script stops after showing one error; otherwise the three
directories are created, the `try` block runs, the `except` handlers
map the escaped exception to an `st.error` message (the
`CalledProcessError` handler dereferences `e.stderr`, so it itself
raises `AttributeError` when `stderr` is `None`), and the `finally`
block removes the input and frame directories. -/
def process (fs0 : FS) (env : Env) (req : Request) : Outcome :=
  match req.submitted, req.uploaded with
  | true, some name =>
    if validate_environment env.which then
      let tr := runTry env req name (setup_directories fs0)
      let shown := handleExc tr.exc
      let fsF := rmtree (rmtree tr.fs INPUT_DIR) FRAME_DIR
      { fs := fsF, errors := shown.1, calls := tr.calls, writes := tr.writes,
        uncaught := shown.2 }
    else
      { fs := fs0, errors := [depsErrorMsg], calls := [], writes := [],
        uncaught := none }
  | _, _ => { fs := fs0, errors := [], calls := [], writes := [], uncaught := none }

/-- A subprocess command invoking the image-conversion tool (either of
its accepted executable names). -/
def isMagickCmd (c : List String) : Bool :=
  c.head? = some "magick" || c.head? = some "convert"

/-- Substring test: `pat` occurs contiguously in `s`. -/
def containsSub (s pat : String) : Bool :=
  (List.range (s.toList.length + 1)).any
    (fun i => charsPre pat.toList (s.toList.drop i))

/-! ### Concrete example inputs, used by witnesses and counterexamples -/

/-- An empty initial filesystem. -/
def fsEmpty : FS := { dirs := [], files := [] }

/-- A search path on which every executable is found. -/
def whichAll : String → Bool := fun _ => true

/-- A submitted PNG-format request for an uploaded file `cat.png`, with
the default parameter values of the form. -/
def reqPNG : Request :=
  { submitted := true
    uploaded := some "cat.png"
    num_shapes := 100
    mode := "1"
    bg_color := "#ffffff"
    alpha := 128
    resize := 256
    output_size := 1024
    rep := 0
    nth := 1
    workers := 0
    output_format := "PNG"
    verbose := false
    very_verbose := false }

/-- The same request with the GIF output format selected. -/
def reqGIF : Request := { reqPNG with output_format := "GIF 🎬" }

/-- A healthy environment for a PNG request: every binary on the path,
POSIX, `primitive` succeeds and writes the result image. -/
def envOk : Env :=
  { which := whichAll
    nt := false
    primitiveStatus := 0
    primitiveStderr := ""
    primitiveOutputs := [joinPath OUTPUT_DIR "cat_result.png"]
    magickStatus := 0 }

/-- A healthy environment for a GIF request: `primitive` writes two
frames and ImageMagick succeeds. -/
def envGifOk : Env :=
  { envOk with
    primitiveOutputs := [joinPath FRAME_DIR "0001.png", joinPath FRAME_DIR "0002.png"] }

/-- An environment in which `primitive` fails: exit status 1,
diagnostic output on stderr, and no file written. -/
def envPrimFail : Env :=
  { envOk with
    primitiveStatus := 1
    primitiveStderr := "open cat.png: boom"
    primitiveOutputs := [] }

/-- An environment in which ImageMagick fails with exit status 1. -/
def envMagickFail : Env := { envGifOk with magickStatus := 1 }

/-- A parameter record with alpha 128, a background colour that is empty
after stripping `#`, and both verbosity flags set. -/
def pEx : Params :=
  { input_path := joinPath INPUT_DIR "cat.png"
    output_path := joinPath OUTPUT_DIR "cat_result.png"
    num_shapes := 100
    mode := "1"
    rep := 0
    nth := 1
    resize := 256
    output_size := 1024
    alpha := 128
    bg_color := "#"
    workers := 0
    verbose := true
    very_verbose := true }

/-! ### Helper lemmas -/

lemma writeFile_dirs (fs : FS) (p : String) : (writeFile fs p).dirs = fs.dirs := rfl

lemma foldl_writeFile_dirs (l : List String) (fs : FS) :
    (l.foldl writeFile fs).dirs = fs.dirs := by
  induction l generalizing fs with
  | nil => rfl
  | cons a as ih => rw [List.foldl_cons, ih, writeFile_dirs]

lemma unlinkFramePngs_dirs (fs : FS) : (unlinkFramePngs fs).dirs = fs.dirs := rfl

lemma mem_mkdirP_self (fs : FS) (d : String) : d ∈ (mkdirP fs d).dirs := by
  unfold mkdirP
  by_cases h : d ∈ fs.dirs <;> simp [h]

lemma mem_mkdirP_of_mem {fs : FS} {x : String} (d : String) (h : x ∈ fs.dirs) :
    x ∈ (mkdirP fs d).dirs := by
  unfold mkdirP
  by_cases hd : d ∈ fs.dirs <;> simp [hd, h]

lemma setup_directories_mem (fs : FS) :
    INPUT_DIR ∈ (setup_directories fs).dirs ∧
    FRAME_DIR ∈ (setup_directories fs).dirs ∧
    OUTPUT_DIR ∈ (setup_directories fs).dirs := by
  unfold setup_directories
  exact ⟨mem_mkdirP_of_mem _ (mem_mkdirP_of_mem _ (mem_mkdirP_self _ _)),
         mem_mkdirP_of_mem _ (mem_mkdirP_self _ _),
         mem_mkdirP_self _ _⟩

lemma mem_rmtree_dirs {x : String} {fs : FS} {d : String} :
    x ∈ (rmtree fs d).dirs ↔ x ∈ fs.dirs ∧ x ≠ d := by
  simp [rmtree, List.mem_filter]

lemma runTry_fs_dirs (env : Env) (req : Request) (name : String) (fs : FS) :
    (runTry env req name fs).fs.dirs = fs.dirs := by
  simp only [runTry]
  split_ifs <;> simp [unlinkFramePngs_dirs, writeFile_dirs, foldl_writeFile_dirs]

lemma runTry_calls (env : Env) (req : Request) (name : String) (fs : FS) :
    (runTry env req name fs).calls =
      if strStarts req.output_format "GIF" then
        [(generate_artwork_cmd env.nt (paramsFor req name), fs.dirs),
         (create_gif_cmd (env.which "magick") (stem name), fs.dirs)]
      else
        [(generate_artwork_cmd env.nt (paramsFor req name), fs.dirs)] := by
  simp only [runTry]
  split_ifs <;> simp [writeFile_dirs, foldl_writeFile_dirs]

lemma process_valid_eq (fs0 : FS) (env : Env) (req : Request) (name : String)
    (hs : req.submitted = true) (hu : req.uploaded = some name)
    (hv : validate_environment env.which = true) :
    process fs0 env req =
      { fs := rmtree (rmtree (runTry env req name (setup_directories fs0)).fs INPUT_DIR)
                FRAME_DIR
        errors := (handleExc (runTry env req name (setup_directories fs0)).exc).1
        calls := (runTry env req name (setup_directories fs0)).calls
        writes := (runTry env req name (setup_directories fs0)).writes
        uncaught := (handleExc (runTry env req name (setup_directories fs0)).exc).2 } := by
  unfold process
  rw [hs, hu]
  simp [hv]

lemma process_parts (fs0 : FS) (env : Env) (req : Request) (name : String)
    (hs : req.submitted = true) (hu : req.uploaded = some name)
    (hv : validate_environment env.which = true) :
    (process fs0 env req).fs =
      rmtree (rmtree (runTry env req name (setup_directories fs0)).fs INPUT_DIR)
        FRAME_DIR ∧
    (process fs0 env req).calls = (runTry env req name (setup_directories fs0)).calls ∧
    (process fs0 env req).errors =
      (handleExc (runTry env req name (setup_directories fs0)).exc).1 ∧
    (process fs0 env req).writes = (runTry env req name (setup_directories fs0)).writes ∧
    (process fs0 env req).uncaught =
      (handleExc (runTry env req name (setup_directories fs0)).exc).2 := by
  rw [process_valid_eq fs0 env req name hs hu hv]
  exact ⟨rfl, rfl, rfl, rfl, rfl⟩

lemma runTry_fs_gif (env : Env) (req : Request) (name : String) (fs : FS)
    (hg : strStarts req.output_format "GIF" = true) (hm : env.magickStatus = 0) :
    (runTry env req name fs).fs =
      unlinkFramePngs (writeFile
        (List.foldl writeFile (writeFile fs (joinPath INPUT_DIR name)) env.primitiveOutputs)
        (joinPath OUTPUT_DIR (stem name ++ "_animation.gif"))) := by
  simp only [runTry]
  rw [if_pos hg, if_neg (by simp [hm])]
  split <;> rfl

lemma framePngs_unlink (fs : FS) : framePngs (unlinkFramePngs fs) = [] := by
  simp only [framePngs, unlinkFramePngs]
  have h : ∀ l : List String,
      (l.filter (fun f => !(isFramePng f))).filter isFramePng = [] := by
    intro l
    induction l with
    | nil => rfl
    | cons a l ih => by_cases ha : isFramePng a <;> simp [List.filter_cons, ha, ih]
  exact h fs.files

lemma isMagickCmd_generate (nt : Bool) (p : Params) :
    isMagickCmd (generate_artwork_cmd nt p) = false := by
  cases nt <;> rfl

lemma isMagickCmd_create (w : Bool) (b : String) :
    isMagickCmd (create_gif_cmd w b) = true := by
  cases w <;> rfl

/-! ### Claims -/

/-- C4: the environment check returns false whenever either required
external executable (in any of its accepted executable names,
`primitive`/`primitive.exe` and `magick`/`convert`) is absent from the
search path, and returns true only when both are present. -/
theorem claim_C4_validate_environment (which : String → Bool) :
    (which "primitive" = false ∧ which "primitive.exe" = false →
      validate_environment which = false) ∧
    (which "magick" = false ∧ which "convert" = false →
      validate_environment which = false) ∧
    (validate_environment which = true →
      (which "primitive" = true ∨ which "primitive.exe" = true) ∧
      (which "magick" = true ∨ which "convert" = true)) := by
  unfold validate_environment
  refine ⟨?_, ?_, ?_⟩
  · rintro ⟨h1, h2⟩
    simp [h1, h2]
  · rintro ⟨h1, h2⟩
    simp [h1, h2]
  · intro h
    simpa [Bool.and_eq_true, Bool.or_eq_true] using h

/-- Witness for C4 at a search path with no executables at all. -/
theorem claim_C4_witness : validate_environment (fun _ => false) = false :=
  (claim_C4_validate_environment (fun _ => false)).1 ⟨rfl, rfl⟩

/-- C6: the destination artifact path is chosen by the output format
selector: each of PNG, JPG and SVG routes output to the single-image
path `<input stem>_result.png` inside the output directory, while the
GIF selector routes output to the frame-sequence pattern inside the
frame staging directory. -/
theorem claim_C6_output_path_by_format (req : Request) (name : String) :
    (req.output_format = "PNG" ∨ req.output_format = "JPG" ∨ req.output_format = "SVG" →
      (paramsFor req name).output_path = joinPath OUTPUT_DIR (stem name ++ "_result.png")) ∧
    (req.output_format = "GIF 🎬" →
      (paramsFor req name).output_path = joinPath FRAME_DIR "%04d.png") := by
  constructor
  · rintro (h | h | h) <;> simp only [paramsFor] <;> rw [h] <;> rfl
  · intro h
    simp only [paramsFor]
    rw [h]
    rfl

/-- Witness for C6 at the example PNG and GIF requests. -/
theorem claim_C6_witness :
    (paramsFor reqPNG "cat.png").output_path = joinPath OUTPUT_DIR ("cat" ++ "_result.png") ∧
    (paramsFor reqGIF "cat.png").output_path = joinPath FRAME_DIR "%04d.png" := by
  constructor
  · have h := (claim_C6_output_path_by_format reqPNG "cat.png").1 (Or.inl rfl)
    rw [h]
    decide
  · exact (claim_C6_output_path_by_format reqGIF "cat.png").2 rfl

/-- C7: when the environment check fails, the request aborts before any
work: exactly the missing-dependency error is shown, the filesystem is
untouched (no working directory created, no upload persisted, indeed no
file written at all), and no subprocess is invoked. -/
theorem claim_C7_env_fail_aborts (fs0 : FS) (env : Env) (req : Request) (name : String)
    (hs : req.submitted = true) (hu : req.uploaded = some name)
    (hv : validate_environment env.which = false) :
    process fs0 env req =
      { fs := fs0, errors := [depsErrorMsg], calls := [], writes := [],
        uncaught := none } := by
  unfold process
  rw [hs, hu]
  simp [hv]

/-- Witness for C7 on a search path with no executables. -/
theorem claim_C7_witness :
    process fsEmpty { envOk with which := fun _ => false } reqPNG =
      { fs := fsEmpty, errors := [depsErrorMsg], calls := [], writes := [],
        uncaught := none } :=
  claim_C7_env_fail_aborts fsEmpty { envOk with which := fun _ => false }
    reqPNG "cat.png" rfl rfl rfl

/-- C10: submitting the form without an uploaded file skips the
processing block entirely: the filesystem is unchanged, and no error,
no subprocess invocation, no file write and no exception occur. -/
theorem claim_C10_no_upload_skips (fs0 : FS) (env : Env) (req : Request)
    (hs : req.submitted = true) (hu : req.uploaded = none) :
    process fs0 env req =
      { fs := fs0, errors := [], calls := [], writes := [], uncaught := none } := by
  unfold process
  rw [hs, hu]

/-- Witness for C10 at the example request with the upload removed. -/
theorem claim_C10_witness :
    process fsEmpty envOk { reqPNG with uploaded := none } =
      { fs := fsEmpty, errors := [], calls := [], writes := [], uncaught := none } :=
  claim_C10_no_upload_skips fsEmpty envOk { reqPNG with uploaded := none } rfl rfl

/-- C1 counterexample: a concrete successful request after which the
output directory is still present on the filesystem, so the three
working directories are not all absent. -/
theorem claim_C1_counterexample :
    (process fsEmpty envOk reqPNG).errors = [] ∧
    (process fsEmpty envOk reqPNG).uncaught = none ∧
    OUTPUT_DIR ∈ (process fsEmpty envOk reqPNG).fs.dirs := by decide

/-- C1 (amended): after any request that passes the environment check,
the input staging directory and the per-frame staging directory are
absent from the filesystem — whether the request succeeded or raised —
but the output directory is not removed. -/
theorem claim_C1_amended_cleanup (fs0 : FS) (env : Env) (req : Request) (name : String)
    (hs : req.submitted = true) (hu : req.uploaded = some name)
    (hv : validate_environment env.which = true) :
    INPUT_DIR ∉ (process fs0 env req).fs.dirs ∧
    FRAME_DIR ∉ (process fs0 env req).fs.dirs ∧
    OUTPUT_DIR ∈ (process fs0 env req).fs.dirs := by
  rw [(process_parts fs0 env req name hs hu hv).1]
  refine ⟨?_, ?_, ?_⟩
  · intro h
    exact (mem_rmtree_dirs.mp (mem_rmtree_dirs.mp h).1).2 rfl
  · intro h
    exact (mem_rmtree_dirs.mp h).2 rfl
  · refine mem_rmtree_dirs.mpr ⟨mem_rmtree_dirs.mpr ⟨?_, by decide⟩, by decide⟩
    rw [runTry_fs_dirs]
    exact (setup_directories_mem fs0).2.2

/-- Witness for the amended C1 at a concrete GIF request on which
ImageMagick fails (the request raises): the staging directories are
still gone, the output directory still present. -/
theorem claim_C1_witness :
    INPUT_DIR ∉ (process fsEmpty envMagickFail reqGIF).fs.dirs ∧
    FRAME_DIR ∉ (process fsEmpty envMagickFail reqGIF).fs.dirs ∧
    OUTPUT_DIR ∈ (process fsEmpty envMagickFail reqGIF).fs.dirs :=
  claim_C1_amended_cleanup fsEmpty envMagickFail reqGIF "cat.png" rfl rfl rfl

/-- C5: for a GIF request the per-frame output of the external tool is
directed to the sequential pattern `%04d.png` inside the frame staging
directory, and once the animated image has been assembled (ImageMagick
exited 0) no `*.png` frame file remains in that directory. -/
theorem claim_C5_gif_frames (env : Env) (req : Request) (name : String) (fs : FS)
    (hg : strStarts req.output_format "GIF" = true) (hm : env.magickStatus = 0) :
    (paramsFor req name).output_path = joinPath FRAME_DIR "%04d.png" ∧
    framePngs (runTry env req name fs).fs = [] := by
  constructor
  · simp only [paramsFor]
    rw [if_pos hg]
  · rw [runTry_fs_gif env req name fs hg hm]
    exact framePngs_unlink _

/-- Witness for C5 at the example GIF request, where the tool writes
two frames into the frame directory. -/
theorem claim_C5_witness :
    (paramsFor reqGIF "cat.png").output_path = joinPath FRAME_DIR "%04d.png" ∧
    framePngs (runTry envGifOk reqGIF "cat.png" (setup_directories fsEmpty)).fs = [] :=
  claim_C5_gif_frames envGifOk reqGIF "cat.png" (setup_directories fsEmpty) rfl rfl

/-- C8: per GIF request the image-conversion tool is invoked exactly
once, over the wildcard `*.png` in the frame directory, with per-frame
delay 10 and loop count 0, writing `<input stem>_animation.gif` in the
output directory. -/
theorem claim_C8_magick_invocation (fs0 : FS) (env : Env) (req : Request) (name : String)
    (hs : req.submitted = true) (hu : req.uploaded = some name)
    (hv : validate_environment env.which = true)
    (hg : strStarts req.output_format "GIF" = true) :
    ((process fs0 env req).calls.map Prod.fst).filter isMagickCmd =
      [[(if env.which "magick" then "magick" else "convert"),
        "-delay", "10", "-loop", "0",
        joinPath FRAME_DIR "*.png",
        joinPath OUTPUT_DIR (stem name ++ "_animation.gif")]] := by
  rw [(process_parts fs0 env req name hs hu hv).2.1, runTry_calls, if_pos hg]
  simp only [List.map_cons, List.map_nil, List.filter_cons, isMagickCmd_generate,
    isMagickCmd_create, List.filter_nil, Bool.false_eq_true, if_false, if_true]
  rfl

/-- Witness for C8 at the example GIF request. -/
theorem claim_C8_witness :
    ((process fsEmpty envGifOk reqGIF).calls.map Prod.fst).filter isMagickCmd =
      [[(if envGifOk.which "magick" then "magick" else "convert"),
        "-delay", "10", "-loop", "0",
        joinPath FRAME_DIR "*.png",
        joinPath OUTPUT_DIR (stem "cat.png" ++ "_animation.gif")]] :=
  claim_C8_magick_invocation fsEmpty envGifOk reqGIF "cat.png" rfl rfl rfl rfl

/-- C9: for every request that reaches the processing stage, all three
working directories exist at the moment of every subprocess invocation
(directory setup precedes both external-tool calls; `fs0` is arbitrary,
so creation also succeeds when a directory already exists). -/
theorem claim_C9_dirs_before_calls (fs0 : FS) (env : Env) (req : Request) (name : String)
    (hs : req.submitted = true) (hu : req.uploaded = some name)
    (hv : validate_environment env.which = true) :
    ∀ c ∈ (process fs0 env req).calls,
      INPUT_DIR ∈ c.2 ∧ FRAME_DIR ∈ c.2 ∧ OUTPUT_DIR ∈ c.2 := by
  intro c hc
  rw [(process_parts fs0 env req name hs hu hv).2.1, runTry_calls] at hc
  have hmem := setup_directories_mem fs0
  by_cases hg : strStarts req.output_format "GIF" = true
  · rw [if_pos hg] at hc
    simp only [List.mem_cons, List.not_mem_nil, or_false] at hc
    rcases hc with rfl | rfl <;> exact hmem
  · rw [if_neg hg] at hc
    simp only [List.mem_singleton] at hc
    subst hc
    exact hmem

/-- Witness for C9: the `primitive` invocation of the example GIF
request sees all three directories. -/
theorem claim_C9_witness :
    INPUT_DIR ∈ ((generate_artwork_cmd false (paramsFor reqGIF "cat.png"),
        (setup_directories fsEmpty).dirs) : List String × List String).2 ∧
    FRAME_DIR ∈ ((generate_artwork_cmd false (paramsFor reqGIF "cat.png"),
        (setup_directories fsEmpty).dirs) : List String × List String).2 ∧
    OUTPUT_DIR ∈ ((generate_artwork_cmd false (paramsFor reqGIF "cat.png"),
        (setup_directories fsEmpty).dirs) : List String × List String).2 :=
  claim_C9_dirs_before_calls fsEmpty envGifOk reqGIF "cat.png" rfl rfl rfl
    (generate_artwork_cmd false (paramsFor reqGIF "cat.png"),
      (setup_directories fsEmpty).dirs)
    (by decide)

/-- C3: the argument list for the geometric-approximation tool is a
deterministic function (`generate_artwork_cmd`) of the configuration
record in which every field appears at a fixed flag position: alpha 128
produces the adjacent pair `-a 128`, a background colour empty after
stripping the leading `#` is replaced by `ffffff`, the eleven
flag/value pairs sit at positions 1-22, and each verbosity flag, when
set, contributes its switch. -/
theorem claim_C3_cmd_reflects_fields (nt : Bool) (p : Params) :
    (p.alpha = 128 →
      (generate_artwork_cmd nt p).get? 17 = some "-a" ∧
      (generate_artwork_cmd nt p).get? 18 = some "128") ∧
    (lstripHash p.bg_color = "" →
      (generate_artwork_cmd nt p).get? 19 = some "-bg" ∧
      (generate_artwork_cmd nt p).get? 20 = some "ffffff") ∧
    (p.verbose = true → "-v" ∈ generate_artwork_cmd nt p) ∧
    (p.very_verbose = true → "-vv" ∈ generate_artwork_cmd nt p) ∧
    (generate_artwork_cmd nt p).get? 1 = some "-i" ∧
    (generate_artwork_cmd nt p).get? 2 = some p.input_path ∧
    (generate_artwork_cmd nt p).get? 3 = some "-o" ∧
    (generate_artwork_cmd nt p).get? 4 = some p.output_path ∧
    (generate_artwork_cmd nt p).get? 5 = some "-n" ∧
    (generate_artwork_cmd nt p).get? 6 = some (toString p.num_shapes) ∧
    (generate_artwork_cmd nt p).get? 7 = some "-m" ∧
    (generate_artwork_cmd nt p).get? 8 = some p.mode ∧
    (generate_artwork_cmd nt p).get? 9 = some "-rep" ∧
    (generate_artwork_cmd nt p).get? 10 = some (toString p.rep) ∧
    (generate_artwork_cmd nt p).get? 11 = some "-nth" ∧
    (generate_artwork_cmd nt p).get? 12 = some (toString p.nth) ∧
    (generate_artwork_cmd nt p).get? 13 = some "-r" ∧
    (generate_artwork_cmd nt p).get? 14 = some (toString p.resize) ∧
    (generate_artwork_cmd nt p).get? 15 = some "-s" ∧
    (generate_artwork_cmd nt p).get? 16 = some (toString p.output_size) ∧
    (generate_artwork_cmd nt p).get? 18 = some (toString p.alpha) ∧
    (generate_artwork_cmd nt p).get? 20 = some (bgOrDefault p.bg_color) ∧
    (generate_artwork_cmd nt p).get? 21 = some "-j" ∧
    (generate_artwork_cmd nt p).get? 22 = some (toString p.workers) := by
  refine ⟨?_, ?_, ?_, ?_, rfl, rfl, rfl, rfl, rfl, rfl, rfl, rfl, rfl, rfl, rfl, rfl,
    rfl, rfl, rfl, rfl, rfl, rfl, rfl, rfl⟩
  · intro h
    refine ⟨rfl, ?_⟩
    have he : (generate_artwork_cmd nt p).get? 18 = some (toString p.alpha) := rfl
    rw [he, h]
    rfl
  · intro h
    refine ⟨rfl, ?_⟩
    have he : (generate_artwork_cmd nt p).get? 20 = some (bgOrDefault p.bg_color) := rfl
    rw [he]
    simp [bgOrDefault, h]
  · intro h
    simp [generate_artwork_cmd, h]
  · intro h
    simp [generate_artwork_cmd, h]

/-- Witness for C3 at alpha 128, background colour `#` (empty after
stripping) and both verbosity flags set. -/
theorem claim_C3_witness :
    (generate_artwork_cmd false pEx).get? 18 = some "128" ∧
    (generate_artwork_cmd false pEx).get? 20 = some "ffffff" ∧
    "-v" ∈ generate_artwork_cmd false pEx ∧
    "-vv" ∈ generate_artwork_cmd false pEx := by
  have h := claim_C3_cmd_reflects_fields false pEx
  exact ⟨(h.1 rfl).2, (h.2.1 (by decide)).2, h.2.2.1 rfl, h.2.2.2.1 rfl⟩

/-- C2 (the code diverges from the claim): at a request on which the
`primitive` tool exits 1 with diagnostic output on stderr, no shown
error contains that output (the run is not checked, and the eventual
error is the unrelated missing-result message); at a GIF request on
which ImageMagick exits 1, no error is shown at all — the
`CalledProcessError` handler dereferences the uncaptured `stderr =
None` and the script dies with `AttributeError`. -/
theorem claim_C2_divergence :
    (envPrimFail.primitiveStatus = 1 ∧
      (process fsEmpty envPrimFail reqPNG).errors.any
        (fun e => containsSub e envPrimFail.primitiveStderr) = false ∧
      (process fsEmpty envPrimFail reqPNG).errors =
        ["❌ Unexpected error: MediaFileStorageError: outputs/cat_result.png"]) ∧
    (envMagickFail.magickStatus = 1 ∧
      (process fsEmpty envMagickFail reqGIF).errors = [] ∧
      (process fsEmpty envMagickFail reqGIF).uncaught =
        some "AttributeError: NoneType object has no attribute splitlines") := by decide

end PrimitiveApp
